import Mathlib

set_option linter.unusedVariables false

/-!
Shallow embedding of the command-execution-and-diagnosis core of
`src/github_install_mcp/server.py`:

* `analyze_error`  — the Failure Classifier (lines 150-186);
* `execute_command` — the Command Runner (lines 188-246), with the
  operating system's process-spawning behaviour abstracted as a function
  `spawn : String → SpawnOutcome`.  The source calls
  `subprocess.Popen(command, shell=True, stdout=PIPE, stderr=PIPE,
  text=True, encoding='utf-8', env=os.environ.copy())`: it passes only the
  command line — the `cwd` parameter of `execute_command` is never
  forwarded to `Popen` — so the abstraction takes only the command string.
  Note also line 218 of the source, `command = "D:\\Anaconda\\condabin\\conda.bat env list"`,
  which reassigns the `command` parameter before the spawn; the embedding
  reproduces this as `hardcoded_command`.
* `clone_and_setup_repo` — the orchestration wrapper (lines 248-284).
  Its Python body can raise `IndexError` (when `setup_commands[current_step]`
  is out of range), so the embedding returns an `Option`; `none` models the
  propagated exception.  The second component of the returned pair records
  the arguments of the calls the wrapper makes to the Command Runner
  (`execute_command`), in order — the wrapper's effect trace.
-/

/-- Substring test at the head: `leadMatch needle hay` is true iff `needle`
is an initial segment of `hay`. -/
def leadMatch : List Char → List Char → Bool
  | [], _ => true
  | _ :: _, [] => false
  | c :: cs, d :: ds => c == d && leadMatch cs ds

/-- `occursIn needle hay` is true iff `needle` occurs contiguously somewhere
in `hay`. -/
def occursIn (needle : List Char) : List Char → Bool
  | [] => needle.isEmpty
  | c :: cs => leadMatch needle (c :: cs) || occursIn needle cs

/-- Python's `needle in hay` substring containment on strings. -/
def pyIn (needle hay : String) : Bool :=
  occursIn needle.data hay.data

/-- One entry of the `common_errors` dict of `analyze_error`: either a flat
`trigger ↦ explanation` pair, or a parent key whose value is a nested dict
of sub-rules. -/
inductive RuleEntry where
  | flat (trigger explanation : String)
  | grouped (parent : String) (subs : List (String × String))
deriving DecidableEq

/-- The `common_errors` dict literal of `analyze_error`, in insertion order
(Python dicts iterate in insertion order). -/
def common_errors : List RuleEntry := [
  .flat "ModuleNotFoundError" "Missing Python module",
  .flat "ImportError" "Import error, possibly missing dependencies",
  .flat "SyntaxError" "Python syntax error",
  .flat "PermissionError" "Permission error, may require admin privileges",
  .flat "FileNotFoundError" "File not found",
  .flat "ConnectionError" "Connection error, may require network access",
  .grouped "pip" [
    ("Could not find a version", "Could not find the specified package version"),
    ("Command errored out", "Command execution error")],
  .grouped "conda" [
    ("PackagesNotFoundError", "Could not find the specified conda package"),
    ("CondaEnvironmentError", "Conda environment error")]]

/-- The matches one entry of `common_errors` contributes for a given
`error_text`: a flat rule contributes its bare `explanation` when its
trigger occurs in the text; a grouped rule contributes
`"<parent> - <sub_explanation>"` for each nested sub-rule whose trigger
occurs in the text, in sub-dict order. -/
def entryMatches (error_text : String) : RuleEntry → List String
  | .flat trigger explanation =>
      if pyIn trigger error_text then [explanation] else []
  | .grouped parent subs =>
      subs.filterMap fun p =>
        if pyIn p.1 error_text then some (parent ++ " - " ++ p.2) else none

/-- `analyze_error` (server.py lines 150-186): iterate `common_errors` in
order appending the matches of each entry; if nothing matched, fall back to
the fixed single-entry list. -/
def analyze_error (error_text : String) : List String :=
  let analysis := common_errors.flatMap (entryMatches error_text)
  if analysis.isEmpty then ["Unrecognized error type"] else analysis

/-- Outcome of an attempted process spawn: either the child ran to
termination with an exit status and captured output streams, or an
exception was raised (its text retained). -/
inductive SpawnOutcome where
  | ok (returncode : Int) (stdout stderr : String)
  | exn (message : String)
deriving DecidableEq

/-- The dictionary returned by `execute_command`.  `error_analysis = none`
models a dict in which the `"error_analysis"` key is absent. -/
structure CommandResult where
  command : String
  exit_code : Int
  stdout : String
  stderr : String
  success : Bool
  error_analysis : Option (List String)
deriving DecidableEq

/-- The string assigned over the `command` parameter at server.py line 218:
`command = "D:\\Anaconda\\condabin\\conda.bat env list"`. -/
def hardcoded_command : String := "D:\\Anaconda\\condabin\\conda.bat env list"

/-- `execute_command` (server.py lines 188-246).  The `try:` body first
reassigns `command` to `hardcoded_command`, then spawns it; `cwd` is unused
by the body.  On an exception the `except` branch returns the fixed error
dict (the embedding is a total function: no exception reaches the caller).
-/
def execute_command (spawn : String → SpawnOutcome)
    (command : String) (cwd : Option String) : CommandResult :=
  match spawn hardcoded_command with
  | .ok returncode stdout stderr =>
      { command := hardcoded_command
        exit_code := returncode
        stdout := stdout
        stderr := stderr
        success := returncode == 0
        error_analysis := none }
  | .exn message =>
      { command := hardcoded_command
        exit_code := -1
        stdout := ""
        stderr := message
        success := false
        error_analysis := some ["Exception occurred while executing command"] }

/-- Python list subscription `xs[i]` with negative-index support:
a negative `i` counts from the end; `none` models a raised `IndexError`. -/
def pyIndex (xs : List String) (i : Int) : Option String :=
  let j : Int := if i < 0 then i + xs.length else i
  if 0 ≤ j ∧ j < (xs.length : Int) then xs.get? j.toNat else none

/-- The dictionary returned by `clone_and_setup_repo`; `none` in an
`Option` field models a dict in which that key is absent. -/
structure SetupStepRecord where
  repo_path : String
  step : Option Int
  command : Option String
  result : Option CommandResult
  next_step : Option Int
  finished : Bool
  message : Option String
deriving DecidableEq

/-- `clone_and_setup_repo` (server.py lines 248-284): executes ONE command
of `setup_commands` per call — the one at index `current_step` — and
reports the index of the next step.  The overall `Option` is `none` when
the Python body would raise (out-of-range subscription); the list in the
pair records the commands passed to `execute_command` during the call. -/
def clone_and_setup_repo (spawn : String → SpawnOutcome) (local_dir : String)
    (setup_commands : List String) (current_step : Int) :
    Option (SetupStepRecord × List String) :=
  if (setup_commands.length : Int) ≤ current_step then
    some ({ repo_path := local_dir
            step := none
            command := none
            result := none
            next_step := none
            finished := true
            message := some "All setup commands have been executed." }, [])
  else
    match pyIndex setup_commands current_step with
    | none => none
    | some cmd =>
      let result := execute_command spawn cmd (some local_dir)
      let finished : Bool := current_step == (setup_commands.length : Int) - 1
      some ({ repo_path := local_dir
              step := some current_step
              command := some cmd
              result := some result
              next_step := if finished then none else some (current_step + 1)
              finished := finished
              message := none }, [cmd])

/-- Helper: when at least one rule matched, `analyze_error` returns the
accumulated match list itself (no fallback). -/
theorem analyze_error_eq_of_ne_nil (t : String)
    (h : common_errors.flatMap (entryMatches t) ≠ []) :
    analyze_error t = common_errors.flatMap (entryMatches t) := by
  have hne : (common_errors.flatMap (entryMatches t)).isEmpty = false := by
    cases hc : common_errors.flatMap (entryMatches t) with
    | nil => exact absurd hc h
    | cons a l => rfl
  simp only [analyze_error, hne, Bool.false_eq_true, if_false]

/-- Claim C6: for every input text, `analyze_error` never returns an empty
list; when no rule's trigger occurs in the input it returns exactly the
single-element list with the fixed unrecognized-error marker. -/
theorem analyze_error_never_empty (t : String) :
    analyze_error t ≠ [] ∧
    (common_errors.flatMap (entryMatches t) = [] →
      analyze_error t = ["Unrecognized error type"]) := by
  by_cases h : common_errors.flatMap (entryMatches t) = []
  · refine ⟨?_, fun _ => ?_⟩ <;> simp [analyze_error, h]
  · exact ⟨by rw [analyze_error_eq_of_ne_nil t h]; exact h, fun hc => absurd hc h⟩

/-- Witness for C6 at the empty string: no rule matches `""` and the result
is the unrecognized-error singleton. -/
theorem analyze_error_never_empty_witness :
    common_errors.flatMap (entryMatches "") = [] ∧
    analyze_error "" = ["Unrecognized error type"] :=
  ⟨by decide, (analyze_error_never_empty "").2 (by decide)⟩

/-- Claim C7: every rule whose trigger substring occurs in the text
contributes its explanation — flat rules the bare explanation, grouped
sub-rules formatted as parent, separator, explanation — and when anything
matched the output is exactly the match list in rule-table order. -/
theorem analyze_error_includes_all_matches (t : String) :
    (common_errors.flatMap (entryMatches t) ≠ [] →
      analyze_error t = common_errors.flatMap (entryMatches t)) ∧
    (∀ trigger explanation, RuleEntry.flat trigger explanation ∈ common_errors →
      pyIn trigger t = true → explanation ∈ analyze_error t) ∧
    (∀ parent subs trigger explanation,
      RuleEntry.grouped parent subs ∈ common_errors →
      (trigger, explanation) ∈ subs → pyIn trigger t = true →
      (parent ++ " - " ++ explanation) ∈ analyze_error t) := by
  refine ⟨analyze_error_eq_of_ne_nil t, ?_, ?_⟩
  · intro trigger explanation hmem hpy
    have hin : explanation ∈ common_errors.flatMap (entryMatches t) :=
      List.mem_flatMap.mpr ⟨_, hmem, by simp [entryMatches, hpy]⟩
    rw [analyze_error_eq_of_ne_nil t (List.ne_nil_of_mem hin)]
    exact hin
  · intro parent subs trigger explanation hmem hsub hpy
    have hin : (parent ++ " - " ++ explanation) ∈
        common_errors.flatMap (entryMatches t) := by
      refine List.mem_flatMap.mpr ⟨_, hmem, ?_⟩
      simp only [entryMatches]
      exact List.mem_filterMap.mpr ⟨(trigger, explanation), hsub, by simp [hpy]⟩
    rw [analyze_error_eq_of_ne_nil t (List.ne_nil_of_mem hin)]
    exact hin

/-- Witness for C7 on a text matching one flat rule and one grouped
sub-rule simultaneously. -/
theorem analyze_error_includes_all_matches_witness :
    "Missing Python module" ∈
      analyze_error "ModuleNotFoundError after pip: Could not find a version" ∧
    ("pip" ++ " - " ++ "Could not find the specified package version") ∈
      analyze_error "ModuleNotFoundError after pip: Could not find a version" :=
  ⟨(analyze_error_includes_all_matches _).2.1 "ModuleNotFoundError"
      "Missing Python module" (by decide) (by decide),
   (analyze_error_includes_all_matches _).2.2 "pip"
      [("Could not find a version", "Could not find the specified package version"),
       ("Command errored out", "Command execution error")]
      "Could not find a version" "Could not find the specified package version"
      (by decide) (by decide) (by decide)⟩

/-- Claim C4: every `CommandResult` the runner produces — on the normal
path and on the exception path alike — has `success = true` exactly when
`exit_code = 0`. -/
theorem execute_command_success_iff_exit_zero
    (spawn : String → SpawnOutcome) (command : String) (cwd : Option String) :
    (execute_command spawn command cwd).success = true ↔
    (execute_command spawn command cwd).exit_code = 0 := by
  unfold execute_command
  cases spawn hardcoded_command with
  | ok returncode stdout stderr => simp [beq_iff_eq]
  | exn message => simp

/-- Claim C5: when the spawn raises, no exception reaches the caller (the
embedding is total); the returned record has `exit_code = -1`, empty
`stdout`, the exception text in `stderr`, `success = false`, and the fixed
single-entry cause list. -/
theorem execute_command_exn (spawn : String → SpawnOutcome)
    (command : String) (cwd : Option String) (message : String)
    (h : spawn hardcoded_command = SpawnOutcome.exn message) :
    execute_command spawn command cwd =
      { command := hardcoded_command, exit_code := -1, stdout := "",
        stderr := message, success := false,
        error_analysis := some ["Exception occurred while executing command"] } := by
  unfold execute_command
  rw [h]

/-- Witness for C5 at a spawn that always raises with text `boom`. -/
theorem execute_command_exn_witness :
    execute_command (fun _ => SpawnOutcome.exn "boom") "echo hi" none =
      { command := hardcoded_command, exit_code := -1, stdout := "",
        stderr := "boom", success := false,
        error_analysis := some ["Exception occurred while executing command"] } :=
  execute_command_exn (fun _ => SpawnOutcome.exn "boom") "echo hi" none "boom" rfl

/-- Counterexample to claim C1: a run whose child exits with status 1 and a
classifiable stderr, yet the returned record carries no causes at all
(`error_analysis` is absent) — the classifier is not consulted on the
nonzero-exit path of `execute_command`. -/
theorem execute_command_nonzero_no_causes :
    (execute_command
        (fun _ => SpawnOutcome.ok 1 "" "ModuleNotFoundError: No module named torch")
        "pip install torch" none).exit_code = 1 ∧
    (execute_command
        (fun _ => SpawnOutcome.ok 1 "" "ModuleNotFoundError: No module named torch")
        "pip install torch" none).success = false ∧
    (execute_command
        (fun _ => SpawnOutcome.ok 1 "" "ModuleNotFoundError: No module named torch")
        "pip install torch" none).error_analysis = none := by
  refine ⟨rfl, by decide, rfl⟩

/-- Claim C1 as amended: whenever the child process actually terminates
(any exit status, zero or not), the runner attaches no `error_analysis`
entry and never invokes the classifier; the fixed cause list appears only
on the exception path. -/
theorem execute_command_ok_no_error_analysis (spawn : String → SpawnOutcome)
    (command : String) (cwd : Option String)
    (returncode : Int) (stdout stderr : String)
    (h : spawn hardcoded_command = SpawnOutcome.ok returncode stdout stderr) :
    (execute_command spawn command cwd).error_analysis = none := by
  unfold execute_command
  rw [h]

/-- Witness for the amended C1 at a child that exits with status 1. -/
theorem execute_command_ok_no_error_analysis_witness :
    (execute_command (fun _ => SpawnOutcome.ok 1 "out" "err") "ls" none).error_analysis
      = none :=
  execute_command_ok_no_error_analysis (fun _ => SpawnOutcome.ok 1 "out" "err")
    "ls" none 1 "out" "err" rfl

/-- Claim C2 is violated by the code: server.py line 218 reassigns the
`command` parameter to the hardcoded string before spawning, so the spawned
command and the `command` field of the result are the hardcoded string, not
the caller's input; the output is independent of the input command. -/
theorem execute_command_ignores_command_input :
    (execute_command (fun _ => SpawnOutcome.ok 0 "" "") "echo hi" none).command =
      hardcoded_command ∧
    hardcoded_command ≠ "echo hi" ∧
    (∀ (spawn : String → SpawnOutcome) (c₁ c₂ : String) (cwd : Option String),
      execute_command spawn c₁ cwd = execute_command spawn c₂ cwd) :=
  ⟨rfl, by decide, fun _ _ _ _ => rfl⟩

/-- Claim C3 is violated by the code: `execute_command` never forwards its
`cwd` parameter to the spawn (server.py lines 220-228 pass no `cwd` to
`Popen`), so the result is independent of the supplied working directory;
in particular a nonexistent directory does not force `exit_code = -1` or a
non-empty `stderr`. -/
theorem execute_command_ignores_cwd :
    (∀ (spawn : String → SpawnOutcome) (command : String) (c₁ c₂ : Option String),
      execute_command spawn command c₁ = execute_command spawn command c₂) ∧
    (execute_command (fun _ => SpawnOutcome.ok 0 "" "") "echo hi"
        (some "/no/such/directory")).exit_code = 0 ∧
    (execute_command (fun _ => SpawnOutcome.ok 0 "" "") "echo hi"
        (some "/no/such/directory")).stderr = "" ∧
    (execute_command (fun _ => SpawnOutcome.ok 0 "" "") "echo hi"
        (some "/no/such/directory")).success = true :=
  ⟨fun _ _ _ _ => rfl, rfl, rfl, by decide⟩

/-- Helper: Python subscription at a nonnegative in-range index. -/
theorem pyIndex_nonneg (xs : List String) (i : Nat) (h : i < xs.length) :
    pyIndex xs i = some (xs.get ⟨i, h⟩) := by
  have h0 : ¬ ((i : Int) < 0) := by omega
  have hc : 0 ≤ (i : Int) ∧ (i : Int) < (xs.length : Int) := by omega
  have ht : ((i : Int)).toNat = i := by omega
  simp only [pyIndex, h0, if_false, hc, and_self, if_true, ht, List.get?_eq_get h]

/-- Helper: Python subscription at a negative index of magnitude at most
the length selects from the end of the list. -/
theorem pyIndex_neg (xs : List String) (i : Int) (hneg : i < 0)
    (hmag : -i ≤ (xs.length : Int)) :
    ∃ h : (i + (xs.length : Int)).toNat < xs.length,
      pyIndex xs i = some (xs.get ⟨(i + (xs.length : Int)).toNat, h⟩) := by
  have hlt : (i + (xs.length : Int)).toNat < xs.length := by omega
  have hc : 0 ≤ i + (xs.length : Int) ∧ i + (xs.length : Int) < (xs.length : Int) := by
    omega
  refine ⟨hlt, ?_⟩
  simp only [pyIndex, hneg, if_true, hc, and_self, List.get?_eq_get hlt]

/-- Helper: one in-range call of the wrapper, for any index accepted by the
bounds guard and the subscription. -/
theorem clone_and_setup_repo_run (spawn : String → SpawnOutcome)
    (local_dir : String) (setup_commands : List String) (current_step : Int)
    (cmd : String) (hlt : current_step < (setup_commands.length : Int))
    (hpy : pyIndex setup_commands current_step = some cmd) :
    clone_and_setup_repo spawn local_dir setup_commands current_step =
      some ({ repo_path := local_dir
              step := some current_step
              command := some cmd
              result := some (execute_command spawn cmd (some local_dir))
              next_step := if current_step == (setup_commands.length : Int) - 1
                then none else some (current_step + 1)
              finished := current_step == (setup_commands.length : Int) - 1
              message := none }, [cmd]) := by
  have hg : ¬ ((setup_commands.length : Int) ≤ current_step) := by omega
  simp only [clone_and_setup_repo, hg, if_false, hpy]

/-- Claim C9: a `current_step` at or past the end of the list short-circuits:
no command is executed (empty runner-call trace) and the returned record has
`finished = true`, the completion message, and no step, command, result or
next-step entries. -/
theorem clone_and_setup_repo_past_end (spawn : String → SpawnOutcome)
    (local_dir : String) (setup_commands : List String) (current_step : Int)
    (h : (setup_commands.length : Int) ≤ current_step) :
    clone_and_setup_repo spawn local_dir setup_commands current_step =
      some ({ repo_path := local_dir, step := none, command := none,
              result := none, next_step := none, finished := true,
              message := some "All setup commands have been executed." }, []) := by
  simp only [clone_and_setup_repo, h, if_true]

/-- Witness for C9: step 5 on a one-command list. -/
theorem clone_and_setup_repo_past_end_witness :
    clone_and_setup_repo (fun _ => SpawnOutcome.ok 0 "" "") "/tmp/repo" ["a"] 5 =
      some ({ repo_path := "/tmp/repo", step := none, command := none,
              result := none, next_step := none, finished := true,
              message := some "All setup commands have been executed." }, []) :=
  clone_and_setup_repo_past_end (fun _ => SpawnOutcome.ok 0 "" "") "/tmp/repo"
    ["a"] 5 (by decide)

/-- Claim C10: a negative `current_step` of magnitude at most the length of
a non-empty list passes the bounds guard; the wrapper executes the command
at that offset from the end and returns `finished = false` with
`next_step = current_step + 1`. -/
theorem clone_and_setup_repo_negative_step (spawn : String → SpawnOutcome)
    (local_dir : String) (setup_commands : List String) (current_step : Int)
    (hne : setup_commands ≠ []) (hneg : current_step < 0)
    (hmag : -current_step ≤ (setup_commands.length : Int)) :
    ∃ cmd, setup_commands.get? (setup_commands.length - (-current_step).toNat)
        = some cmd ∧
      clone_and_setup_repo spawn local_dir setup_commands current_step =
        some ({ repo_path := local_dir, step := some current_step,
                command := some cmd,
                result := some (execute_command spawn cmd (some local_dir)),
                next_step := some (current_step + 1), finished := false,
                message := none }, [cmd]) := by
  obtain ⟨hlt, hpy⟩ := pyIndex_neg setup_commands current_step hneg hmag
  have hlen : setup_commands.length ≠ 0 := by
    intro h0
    exact hne (List.eq_nil_of_length_eq_zero h0)
  have hfin : (current_step == (setup_commands.length : Int) - 1) = false := by
    rw [beq_eq_false_iff_ne]
    omega
  have hoff : setup_commands.length - (-current_step).toNat =
      (current_step + (setup_commands.length : Int)).toNat := by omega
  refine ⟨setup_commands.get ⟨(current_step + (setup_commands.length : Int)).toNat, hlt⟩,
    ?_, ?_⟩
  · rw [hoff, List.get?_eq_get hlt]
  · rw [clone_and_setup_repo_run spawn local_dir setup_commands current_step _
      (by omega) hpy, hfin]
    simp

/-- Witness for C10: step -1 on a two-command list runs the last command
and reports `next_step = 0`. -/
theorem clone_and_setup_repo_negative_step_witness :
    ∃ cmd, ["echo one", "echo two"].get? 1 = some cmd ∧
      clone_and_setup_repo (fun _ => SpawnOutcome.ok 0 "" "") "/tmp/repo"
          ["echo one", "echo two"] (-1) =
        some ({ repo_path := "/tmp/repo", step := some (-1),
                command := some cmd,
                result := some (execute_command (fun _ => SpawnOutcome.ok 0 "" "")
                  cmd (some "/tmp/repo")),
                next_step := some (-1 + 1), finished := false,
                message := none }, [cmd]) := by
  obtain ⟨cmd, h1, h2⟩ := clone_and_setup_repo_negative_step
    (fun _ => SpawnOutcome.ok 0 "" "") "/tmp/repo" ["echo one", "echo two"] (-1)
    (by decide) (by decide) (by decide)
  exact ⟨cmd, by simpa using h1, h2⟩

/-- Counterexample to claim C8: a single call of the orchestration wrapper
on a two-command list passes only the first command to the Command Runner —
it does not run every command of the list, and it returns a single
per-step record rather than an aggregate with one entry per command. -/
theorem clone_and_setup_repo_one_call_only :
    (clone_and_setup_repo (fun _ => SpawnOutcome.ok 0 "" "") "/tmp/repo"
        ["echo one", "echo two"] 0).map Prod.snd = some ["echo one"] ∧
    some ["echo one"] ≠ some ["echo one", "echo two"] :=
  ⟨by decide, by decide⟩

/-- Claim C8 as amended: each call of `clone_and_setup_repo` executes
exactly one command — the one at index `current_step` — with one
runner invocation per call; the control outputs (`next_step`, `finished`,
and the runner-call trace) are independent of the commands' outcomes, so a
failing command does not alter the sequencing; and driving the wrapper over
steps `0, 1, …, length-1` passes every command of the list to the runner,
in list order, exactly once.  No aggregate success flag is returned. -/
theorem clone_and_setup_repo_stepwise (spawn spawnB : String → SpawnOutcome)
    (local_dir : String) (setup_commands : List String) :
    (∀ (i : Nat) (h : i < setup_commands.length),
      ∃ rec, clone_and_setup_repo spawn local_dir setup_commands i =
          some (rec, [setup_commands.get ⟨i, h⟩]) ∧
        rec.step = some (i : Int) ∧
        rec.command = some (setup_commands.get ⟨i, h⟩) ∧
        rec.result = some (execute_command spawn (setup_commands.get ⟨i, h⟩)
          (some local_dir)) ∧
        (rec.finished = true ↔ i + 1 = setup_commands.length) ∧
        (i + 1 < setup_commands.length → rec.next_step = some ((i : Int) + 1))) ∧
    (∀ i : Int, (clone_and_setup_repo spawn local_dir setup_commands i).map
        (fun p => (p.1.next_step, p.1.finished, p.2)) =
      (clone_and_setup_repo spawnB local_dir setup_commands i).map
        (fun p => (p.1.next_step, p.1.finished, p.2))) ∧
    ((List.range setup_commands.length).flatMap
        (fun j => ((clone_and_setup_repo spawn local_dir setup_commands (j : Int)).map
          Prod.snd).getD [])) = setup_commands := by
  refine ⟨?_, ?_, ?_⟩
  · intro i h
    have hpy := pyIndex_nonneg setup_commands i h
    have hrun := clone_and_setup_repo_run spawn local_dir setup_commands i _
      (by omega) hpy
    refine ⟨_, hrun, rfl, rfl, rfl, ?_, ?_⟩
    · show ((i : Int) == (setup_commands.length : Int) - 1) = true ↔
        i + 1 = setup_commands.length
      rw [beq_iff_eq]
      omega
    · intro hlt2
      show (if (i : Int) == (setup_commands.length : Int) - 1
        then none else some ((i : Int) + 1)) = some ((i : Int) + 1)
      have hf : ((i : Int) == (setup_commands.length : Int) - 1) = false := by
        rw [beq_eq_false_iff_ne]
        omega
      rw [hf]
      simp
  · intro i
    unfold clone_and_setup_repo
    by_cases hg : (setup_commands.length : Int) ≤ i
    · rw [if_pos hg, if_pos hg]
    · rw [if_neg hg, if_neg hg]
      cases hpy : pyIndex setup_commands i with
      | none => rfl
      | some cmd => rfl
  · have key : ∀ j, j < setup_commands.length →
        ((clone_and_setup_repo spawn local_dir setup_commands (j : Int)).map
          Prod.snd).getD [] = [setup_commands.getD j ""] := by
      intro j hj
      rw [clone_and_setup_repo_run spawn local_dir setup_commands j _ (by omega)
        (pyIndex_nonneg setup_commands j hj)]
      simp [List.get_eq_getElem, List.getElem?_eq_getElem hj]
    have hflat : ∀ n, n ≤ setup_commands.length →
        (List.range n).flatMap (fun j =>
          ((clone_and_setup_repo spawn local_dir setup_commands (j : Int)).map
            Prod.snd).getD []) =
        (List.range n).map (fun j => setup_commands.getD j "") := by
      intro n
      induction n with
      | zero => intro _; rfl
      | succ m ih =>
          intro hm
          rw [List.range_succ, List.flatMap_append, List.map_append, ih (by omega)]
          simp [key m (by omega)]
    rw [hflat setup_commands.length (le_refl _)]
    apply List.ext_getElem
    · simp
    · intro n h1 h2
      simp [List.getElem?_eq_getElem h2]

/-- Witness for the amended C8: step 0 on a two-command list runs exactly
the first command and reports `next_step = 1`. -/
theorem clone_and_setup_repo_stepwise_witness :
    ∃ rec, clone_and_setup_repo (fun _ => SpawnOutcome.ok 0 "" "") "/tmp/repo"
        ["echo one", "echo two"] 0 = some (rec, ["echo one"]) ∧
      rec.next_step = some ((0 : Int) + 1) := by
  obtain ⟨rec, h1, _, _, _, _, h6⟩ :=
    (clone_and_setup_repo_stepwise (fun _ => SpawnOutcome.ok 0 "" "")
      (fun _ => SpawnOutcome.exn "boom") "/tmp/repo" ["echo one", "echo two"]).1
      0 (by decide)
  exact ⟨rec, h1, h6 (by decide)⟩
